import Mathlib

/-
Verification of the job-posting synchronization program (sync_jobs.py and
curl_notion_client.py): a shallow embedding of the reconciliation loop, the
stale-marking pass, the page create/update property construction, and the
retrying curl-backed client, together with theorems about the behaviour the
design document ascribes to them.
-/

set_option autoImplicit false

namespace JobSync

/-! ## String utilities

Python's `in` operator on strings (substring containment), modelled over the
character list of a string. -/

/-- Whether the character list `pat` is an initial segment of `l`. -/
def listStartsWith : List Char → List Char → Bool
  | _, [] => true
  | [], _ :: _ => false
  | c :: cs, d :: ds => c == d && listStartsWith cs ds

/-- Whether `pat` occurs contiguously anywhere inside `l`. -/
def listContainsSub : List Char → List Char → Bool
  | [], pat => pat.isEmpty
  | c :: cs, pat => listStartsWith (c :: cs) pat || listContainsSub cs pat

/-- Python `pat in s` for strings: substring containment. -/
def strContains (s pat : String) : Bool :=
  listContainsSub s.toList pat.toList

/-- First-match association lookup, modelling Python dict indexing for the
string-valued property maps used throughout (dict keys are unique, so
first-match agrees with dict semantics). -/
def lookupProp : List (String × String) → String → Option String
  | [], _ => none
  | kv :: rest, key => if kv.1 == key then some kv.2 else lookupProp rest key

/-! ## Data model of sync_jobs.py

A `Job` is one record produced by `get_jobs_from_greenhouse` (sync_jobs.py
lines 94-102): the dict always carries the string fields below; `apply_url`
and `updated_at` are read at their use sites with `job.get(...)`, so they are
modelled as `Option String` with `none` for an absent entry (an empty string
models a present-but-falsy value, matching Python truthiness). -/

structure Job where
  id : String
  title : String
  location : String
  department : String
  apply_url : Option String
  experience : String
  updated_at : Option String
deriving DecidableEq, Repr

/-- One entry of the `existing` dict built by `get_existing_jobs_from_notion`
(sync_jobs.py lines 167-172): page id, extracted title and the page's
last-edited time, keyed by REQ ID.  The Notion property payload parsing
(lines 150-166) always sets these string fields, so the later
`.get("title", "")` and `.get("updated_at", "")` reads coincide with direct
field access. -/
structure ExistingJob where
  page_id : String
  title : String
  updated_at : String
deriving DecidableEq, Repr

/-- The snapshot of the destination database: REQ ID keyed entries, in
iteration (insertion) order, as the Python dict `existing_jobs`. -/
abbrev Snapshot : Type := List (String × ExistingJob)

/-- Python `req_id in existing_jobs` / `existing_jobs[req_id]`. -/
def lookupSnap : Snapshot → String → Option ExistingJob
  | [], _ => none
  | kv :: rest, key => if kv.1 == key then some kv.2 else lookupSnap rest key

/-! ## Destination store

The Notion database itself is an external collaborator; its partial-update
semantics is the one the design document states for
`updateFields(id, partialFields)`: the supplied properties are set, every
other property is untouched, and the page is not removed.  Pages hold
string-valued property payloads. -/

structure Page where
  id : String
  fields : List (String × String)
deriving DecidableEq, Repr

/-- The destination store: the list of its pages. -/
abbrev Store : Type := List Page

/-- Set property `k` to `v`: replace the existing entry for `k`, or append a
new one when no entry for `k` exists. -/
def setProp (fields : List (String × String)) (k v : String) :
    List (String × String) :=
  if fields.any (fun kv => kv.1 == k) then
    fields.map (fun kv => if kv.1 == k then (k, v) else kv)
  else
    fields ++ [(k, v)]

/-- Merge a partial property map into a page's fields, key by key. -/
def mergeProps (fields : List (String × String))
    (props : List (String × String)) : List (String × String) :=
  props.foldl (fun f kv => setProp f kv.1 kv.2) fields

/-- Modelled from the spec: the destination store interface
`updateFields(id, partialFields) -> void` (design document section 6), the
semantics behind `notion.pages_update`, which is external to this
repository.  It rewrites the addressed page's supplied properties in place
and deletes nothing. -/
def pages_update (st : Store) (page_id : String)
    (props : List (String × String)) : Store :=
  st.map (fun p => if p.id == page_id then
    { p with fields := mergeProps p.fields props } else p)

/-! ## Field normalization (sync_jobs.py lines 314-336) -/

/-- The TARGET_LOCATIONS keyword table (sync_jobs.py lines 25-30), in dict
insertion order. -/
def TARGET_LOCATIONS : List (String × String) :=
  [("taipei", "Taipei Taiwan"), ("taiwan", "Taipei Taiwan"),
   ("tokyo", "Tokyo Japan"), ("japan", "Tokyo Japan")]

/-- normalize_department (sync_jobs.py lines 314-323). -/
def normalize_department (dept : String) : String :=
  let l := dept.toLower
  if strContains l "test" || strContains l "electrical" then
    "Electrical Test Engineering"
  else if strContains l "business" || strContains l "bd" then
    "Business Development"
  else
    dept.take 100

/-- normalize_location (sync_jobs.py lines 326-336): first matching keyword
of TARGET_LOCATIONS wins, otherwise the raw location truncated. -/
def normalize_location (location : String) : String :=
  let l := location.toLower
  match TARGET_LOCATIONS.find? (fun kv => strContains l kv.1) with
  | some kv => kv.2
  | none => location.take 100

/-- clean_text (sync_jobs.py lines 191-199): drop control characters other
than newline, carriage return and tab, then truncate.  The Python `text`
argument is always a string at every call site, so only string emptiness is
relevant for the leading falsiness test. -/
def clean_text (text : String) (maxLen : Option Nat) : String :=
  if text == "" then ""
  else
    let t := String.mk (text.toList.filter
      (fun c => c.toNat ≥ 32 || c == '\n' || c == '\r' || c == '\t'))
    match maxLen with
    | some n => t.take n
    | none => t

/-! ## Page creation (create_job_page, sync_jobs.py lines 187-280) -/

/-- The apply-URL property value (sync_jobs.py lines 251-256): the job's
apply_url when it is truthy and starts with "http", otherwise the fixed
fallback URL. -/
def apply_url_property (j : Job) : String :=
  match j.apply_url with
  | some u => if u != "" && u.startsWith "http" then u
              else "https://www.anduril.com"
  | none => "https://www.anduril.com"

/-- The property map sent by create_job_page (sync_jobs.py lines 201-256), in
dict insertion order; property values are modelled by their text payloads. -/
def create_properties (j : Job) (today : String) : List (String × String) :=
  [("職位名稱", clean_text j.title (some 100)),
   ("部門", clean_text (normalize_department j.department) (some 100)),
   ("地點", clean_text (normalize_location j.location) (some 100)),
   ("REQ ID", clean_text j.id (some 100)),
   ("經驗要求", clean_text j.experience (some 100)),
   ("申請狀態", "尚未申請"),
   ("新增日期", today),
   ("申請連結", apply_url_property j)]

/-- Creating a page appends a fresh page carrying the created properties; the
store assigns the new page id. -/
def create_job_page (st : Store) (newId : String) (j : Job)
    (today : String) : Store :=
  st ++ [{ id := newId, fields := create_properties j today }]

/-! ## Page update (update_job_page, sync_jobs.py lines 283-311) -/

/-- The property map built by update_job_page (sync_jobs.py lines 290-293):
the source assigns `properties =` an empty dict and never adds an entry. -/
def update_properties (_j : Job) : List (String × String) := []

/-- update_job_page (sync_jobs.py lines 283-311): the update request is
issued only when the built property map is non-empty (`if properties:`),
which never holds; the surrounding retry loop is irrelevant because no
request is sent. -/
def update_job_page (st : Store) (page_id : String) (j : Job) : Store :=
  if (update_properties j).isEmpty then st
  else pages_update st page_id (update_properties j)

/-! ## Stale marking (mark_removed_jobs, sync_jobs.py lines 339-353) -/

/-- The stale annotation written into the 備註 property: the fixed marker
text plus the current date (sync_jobs.py line 348). -/
def staleMarkerText (today : String) : String :=
  "⚠️ 職缺可能已關閉 (" ++ today ++ ")"

/-- The single-property map sent by mark_removed_jobs for one stale page. -/
def markRemovedProps (today : String) : List (String × String) :=
  [("備註", staleMarkerText today)]

/-- mark_removed_jobs (sync_jobs.py lines 339-353): walk the existing
snapshot in order; every entry whose REQ ID is absent from the current ids
receives the stale annotation.  Returns the resulting store and the list of
entries that were marked. -/
def mark_removed_jobs : Snapshot → List String → String → Store →
    Store × Snapshot
  | [], _, _, st => (st, [])
  | (rid, d) :: rest, current, today, st =>
    if rid ∈ current then
      mark_removed_jobs rest current today st
    else
      let st' := pages_update st d.page_id (markRemovedProps today)
      let r := mark_removed_jobs rest current today st'
      (r.1, (rid, d) :: r.2)

/-! ## The sync loop of main (sync_jobs.py lines 404-422) -/

/-- The per-record decision taken by the loop body. -/
inductive Decision where
  | create
  | update (page_id : String)
  | unchanged
deriving DecidableEq, Repr

/-- The decision of main's loop body (sync_jobs.py lines 409-422): a record
whose REQ ID is absent from the snapshot is created; otherwise it is updated
exactly when its title or its updated_at differs from the stored values, and
skipped as "no change" otherwise. -/
def classifyJob (existing : Snapshot) (j : Job) : Decision :=
  match lookupSnap existing j.id with
  | some e =>
    if j.title != e.title || j.updated_at.getD "" != e.updated_at then
      .update e.page_id
    else
      .unchanged
  | none => .create

/-- The change set accumulated by one pass of main's loop: created records,
updated records (with their page ids), records skipped as unchanged, and the
set of REQ IDs seen (current_req_ids). -/
structure ChangeSet where
  creates : List Job
  updates : List (String × Job)
  unchanged : List Job
  currentIds : List String
deriving DecidableEq, Repr

/-- The whole loop of main over the fetched jobs (sync_jobs.py lines
404-422), preserving input order within each group. -/
def runSync : List Job → Snapshot → ChangeSet
  | [], _ => ⟨[], [], [], []⟩
  | j :: rest, existing =>
    let tail := runSync rest existing
    match classifyJob existing j with
    | .create => ⟨j :: tail.creates, tail.updates, tail.unchanged,
        j.id :: tail.currentIds⟩
    | .update pid => ⟨tail.creates, (pid, j) :: tail.updates, tail.unchanged,
        j.id :: tail.currentIds⟩
    | .unchanged => ⟨tail.creates, tail.updates, j :: tail.unchanged,
        j.id :: tail.currentIds⟩

/-! ## Snapshot fetch with retries (get_existing_jobs_from_notion,
sync_jobs.py lines 141-184) -/

/-- MAX_RETRIES (sync_jobs.py line 39). -/
def MAX_RETRIES : Nat := 3

/-- The retry loop of get_existing_jobs_from_notion: `query a` is the
(already parsed) outcome of the database query on attempt `a`.  A successful
attempt returns its snapshot; a failing attempt retries while attempts
remain, and the final failure returns the empty snapshot (sync_jobs.py lines
177-184). -/
def get_existing_go (query : Nat → Except String Snapshot) :
    Nat → Nat → Snapshot
  | _, 0 => []
  | a, r + 1 =>
    match query a with
    | .ok s => s
    | .error _ => if r == 0 then [] else get_existing_go query (a + 1) r

/-- get_existing_jobs_from_notion (sync_jobs.py lines 141-184). -/
def get_existing_jobs_from_notion (query : Nat → Except String Snapshot) :
    Snapshot :=
  get_existing_go query 0 MAX_RETRIES

/-! ## The run (main, sync_jobs.py lines 356-431), from the point where the
job list has been fetched -/

/-- Outcome of a run: an early return with an exit code, or a completed pass
with its change set, the entries that were stale-marked, and the final
store. -/
inductive RunOutcome where
  | aborted (exitCode : Nat)
  | completed (cs : ChangeSet) (marked : Snapshot) (store : Store)
deriving DecidableEq

/-- Whether the run stopped early. -/
def RunOutcome.stoppedEarly : RunOutcome → Bool
  | .aborted _ => true
  | .completed _ _ _ => false

/-- main after the Greenhouse fetch (sync_jobs.py lines 391-431): an empty
job list returns exit code 1 before any destination work; otherwise the
snapshot is fetched (with its internal retries), the sync loop runs, and
mark_removed_jobs finishes the pass. -/
def mainRun (jobs : List Job) (query : Nat → Except String Snapshot)
    (today : String) (st : Store) : RunOutcome :=
  if jobs.isEmpty then .aborted 1
  else
    let existing := get_existing_jobs_from_notion query
    let cs := runSync jobs existing
    let r := mark_removed_jobs existing cs.currentIds today st
    .completed cs r.2 r.1

/-! ## The curl-backed client (curl_notion_client.py)

The transport is the external `curl` process: a function from the attempt
index and the full command line to the observed process result.  JSON
parsing of the response body is likewise external (`json.loads`) and is a
parameter `parse`; a `none` result models a JSON decode error. -/

/-- NOTION_API_BASE (curl_notion_client.py line 13). -/
def NOTION_API_BASE : String := "https://api.notion.com/v1"

/-- The observable result of one curl subprocess run: either the 65 second
subprocess timeout fired, or the process finished with a return code and
captured stdout and stderr. -/
structure TransportResult where
  timedOut : Bool
  returncode : Int
  stdout : String
  stderr : String
deriving DecidableEq, Repr

/-- A parsed JSON response body, restricted to the string-valued object
fields the client inspects. -/
structure NotionResponse where
  fields : List (String × String)
deriving DecidableEq, Repr

/-- Errors raised inside one attempt: the subprocess timeout, or a generic
exception carrying its message. -/
inductive CurlErr where
  | timeout
  | failure (msg : String)
deriving DecidableEq, Repr

/-- The request headers (curl_notion_client.py lines 20-25), in dict
insertion order. -/
def requestHeaders (auth : String) : List (String × String) :=
  [("Authorization", "Bearer " ++ auth), ("Notion-Version", "2022-06-28"),
   ("Content-Type", "application/json"), ("Connection", "close")]

/-- The request URL (curl_notion_client.py line 29). -/
def requestUrl (path : String) : String := NOTION_API_BASE ++ path

/-- The curl command line for one attempt (curl_notion_client.py lines
39-64): the fixed options, then verbose on retries and silent on the first
attempt, then the headers, then the serialized body when one is given
(`data` is the `json.dumps` output of a truthy body), then the URL. -/
def buildCmd (method path auth : String) (data : Option String)
    (attempt : Nat) : List String :=
  "curl" :: "-X" :: method :: "--http1.1" :: "--max-time" :: "60" ::
  "--connect-timeout" :: "30" :: "--tcp-nodelay" :: "--keepalive-time" ::
  "60" :: (if attempt > 0 then "-v" else "-s") ::
  ((requestHeaders auth).flatMap (fun kv => ["-H", kv.1 ++ ": " ++ kv.2]) ++
    (match data with | some d => ["-d", d] | none => []) ++
    [requestUrl path])

/-- The per-element redaction of the command echo (curl_notion_client.py
line 68): an element containing "Bearer" is replaced by a placeholder. -/
def redactOne (c : String) : String :=
  if strContains c "Bearer" then "[HIDDEN]" else c

/-- The command echo printed on the first attempt (curl_notion_client.py
line 69): the first eight redacted elements joined by spaces, then the
URL. -/
def debugEchoLine (cmd : List String) (url : String) : String :=
  "   執行 curl: " ++ String.intercalate " " ((cmd.map redactOne).take 8) ++
  "... " ++ url

/-- All first-attempt diagnostic lines (curl_notion_client.py lines 66-75):
the command echo, and for a request with a body its size plus a warning for
large bodies. -/
def debugLogLines (cmd : List String) (url : String) (data : Option String) :
    List String :=
  [debugEchoLine cmd url] ++
  (match data with
   | some d =>
     ["   數據大小: " ++ toString d.length ++ " bytes"] ++
     (if d.length > 10000 then ["   ⚠️ 警告：數據較大可能導致問題"] else [])
   | none => [])

/-- The backoff before resending attempt `attempt` (curl_notion_client.py
line 34): two to the power of the attempt index, in seconds. -/
def wait_time (attempt : Nat) : Nat := 2 ^ attempt

/-- The message printed before the backoff sleep (curl_notion_client.py
line 35). -/
def retryWaitLine (attempt : Nat) : String :=
  "   等待 " ++ toString (wait_time attempt) ++ " 秒後重試..."

/-- The exception message for a nonzero curl return code
(curl_notion_client.py lines 97-101). -/
def curlFailMessage (tr : TransportResult) : String :=
  let stdoutMsg := if tr.stdout == "" then "" else tr.stdout.take 200
  let errMsg := if tr.stderr == "" then "無錯誤信息" else tr.stderr
  "curl 返回碼 " ++ toString tr.returncode ++ ": stdout: " ++ stdoutMsg ++
  ", stderr: " ++ errMsg.take 200

/-- The outcome of one attempt given the transport result
(curl_notion_client.py lines 77-101): a timeout raises the timeout error; a
zero return code parses stdout (a decode failure and an error-object payload
each raise) and otherwise returns the response; a nonzero return code raises
with the detailed message. -/
def attemptOutcome (parse : String → Option NotionResponse)
    (tr : TransportResult) : Except CurlErr NotionResponse :=
  if tr.timedOut then .error .timeout
  else if tr.returncode == 0 then
    match parse tr.stdout with
    | none => .error (.failure ("JSON 解析失敗: " ++ tr.stdout.take 200))
    | some resp =>
      if lookupProp resp.fields "object" == some "error" then
        .error (.failure ("API Error: " ++
          (lookupProp resp.fields "message").getD "Unknown error"))
      else .ok resp
  else .error (.failure (curlFailMessage tr))

/-- The terminal error raised on the last attempt (curl_notion_client.py
lines 103-112): a timeout is replaced by a fresh generic exception, any
other exception is re-raised unchanged. -/
def finalizeErr : CurlErr → CurlErr
  | .timeout => .failure "請求超時"
  | .failure m => .failure m

/-- The line printed for a failed non-final attempt (curl_notion_client.py
lines 105 and 110). -/
def attemptFailLine (attempt total : Nat) : CurlErr → String
  | .timeout => "   ⚠️ 請求超時 (嘗試 " ++ toString (attempt + 1) ++ "/" ++
      toString total ++ ")"
  | .failure m => "   ⚠️ 請求失敗 (嘗試 " ++ toString (attempt + 1) ++ "/" ++
      toString total ++ "): " ++ m

instance {ε α : Type} [DecidableEq ε] [DecidableEq α] :
    DecidableEq (Except ε α) := fun a b =>
  match a, b with
  | .error e1, .error e2 =>
    if h : e1 = e2 then isTrue (by rw [h])
    else isFalse (by intro hh; cases hh; exact h rfl)
  | .ok v1, .ok v2 =>
    if h : v1 = v2 then isTrue (by rw [h])
    else isFalse (by intro hh; cases hh; exact h rfl)
  | .error _, .ok _ => isFalse (by intro hh; cases hh)
  | .ok _, .error _ => isFalse (by intro hh; cases hh)

/-- The observable trace of one `_curl_request` call: the backoff sleeps
performed, the diagnostic lines printed, and the returned response or the
raised terminal error. -/
structure RunTrace where
  waits : List Nat
  log : List String
  result : Except CurlErr NotionResponse
deriving DecidableEq, Repr

/-- The retry loop of `_curl_request` (curl_notion_client.py lines 31-114),
indexed by the current attempt and the number of attempts remaining.  An
exhausted loop corresponds to the final raise on line 114, reached only when
`max_retries` is zero. -/
def curlGo (parse : String → Option NotionResponse)
    (transport : Nat → List String → TransportResult)
    (method path auth : String) (data : Option String) :
    Nat → Nat → RunTrace
  | _, 0 => ⟨[], [], .error (.failure "所有重試都失敗")⟩
  | attempt, r + 1 =>
    let waits0 := if attempt > 0 then [wait_time attempt] else []
    let log0 := if attempt > 0 then [retryWaitLine attempt] else []
    let cmd := buildCmd method path auth data attempt
    let log1 := if attempt == 0 then debugLogLines cmd (requestUrl path) data
                else []
    match attemptOutcome parse (transport attempt cmd) with
    | .ok resp => ⟨waits0, log0 ++ log1, .ok resp⟩
    | .error e =>
      if r == 0 then
        ⟨waits0, log0 ++ log1, .error (finalizeErr e)⟩
      else
        let rest := curlGo parse transport method path auth data
          (attempt + 1) r
        ⟨waits0 ++ rest.waits,
         log0 ++ log1 ++ [attemptFailLine attempt (attempt + r + 1) e] ++
           rest.log,
         rest.result⟩

/-- `_curl_request` (curl_notion_client.py lines 27-114). -/
def curl_request (parse : String → Option NotionResponse)
    (transport : Nat → List String → TransportResult)
    (method path auth : String) (data : Option String)
    (maxRetries : Nat) : RunTrace :=
  curlGo parse transport method path auth data 0 maxRetries

/-! ## Concrete sample data for instantiating the theorems -/

/-- A sample Greenhouse record with key J1. -/
def sampleJob : Job :=
  ⟨"J1", "Engineer", "Taipei, Taiwan", "Avionics",
   some "https://jobs.example/j1", "5+ years", some "t0"⟩

/-- A sample record with key J1 and a changed title. -/
def sampleJobNew : Job :=
  ⟨"J1", "New Title", "Taipei, Taiwan", "Avionics",
   some "https://jobs.example/j1", "5+ years", some "t1"⟩

/-- The stored snapshot entry for J1, matching sampleJob's title and
timestamp. -/
def sampleEntry : ExistingJob := ⟨"P1", "Engineer", "t0"⟩

/-- A snapshot holding only J1. -/
def sampleSnap : Snapshot := [("J1", sampleEntry)]

/-- The stored snapshot entry for J2. -/
def sampleEntry2 : ExistingJob := ⟨"P2", "Analyst", "t1"⟩

/-- A snapshot holding only J2. -/
def sampleSnap2 : Snapshot := [("J2", sampleEntry2)]

/-- A destination page for J1 with an old title and a manually set
application status. -/
def samplePage : Page :=
  ⟨"P1", [("職位名稱", "Old Title"), ("申請狀態", "已申請")]⟩

/-- A one-page destination store. -/
def sampleStore : Store := [samplePage]

/-- A parse oracle that fails on every body (no attempt in the failing
scenarios ever reaches parsing). -/
def pNone : String → Option NotionResponse := fun _ => none

/-- A transport result for a curl run that exits with code 7 and empty
output. -/
def failTR : TransportResult := ⟨false, 7, "", ""⟩

/-- A transport on which every attempt fails with exit code 7. -/
def failTransport : Nat → List String → TransportResult := fun _ _ => failTR

/-- A transport modelling curl's documented verbose behaviour: with `-v` on
the command line the request headers are echoed to stderr; the run exits
with code 7. -/
def echoTransport : Nat → List String → TransportResult := fun _ cmd =>
  ⟨false, 7, "",
   if cmd.contains "-v" then
     String.intercalate " "
       (cmd.filter (fun c => strContains c "Authorization"))
   else ""⟩

/-! ## Helper lemmas about the reconciliation loop -/

theorem classifyJob_eq_create_iff (existing : Snapshot) (j : Job) :
    classifyJob existing j = .create ↔
      (lookupSnap existing j.id).isNone = true := by
  unfold classifyJob
  cases h : lookupSnap existing j.id with
  | none => simp
  | some e =>
    simp only [Option.isNone_some]
    constructor
    · intro hc
      split at hc <;> cases hc
    · intro hc
      cases hc

theorem runSync_creates (jobs : List Job) (existing : Snapshot) :
    (runSync jobs existing).creates =
      jobs.filter (fun j => (lookupSnap existing j.id).isNone) := by
  induction jobs with
  | nil => rfl
  | cons j rest ih =>
    simp only [runSync, List.filter_cons]
    cases hc : classifyJob existing j with
    | create =>
      have hn : (lookupSnap existing j.id).isNone = true :=
        (classifyJob_eq_create_iff existing j).mp hc
      simp [hn, ih]
    | update pid =>
      have hn : (lookupSnap existing j.id).isNone = false := by
        cases hb : (lookupSnap existing j.id).isNone with
        | false => rfl
        | true =>
          have := (classifyJob_eq_create_iff existing j).mpr hb
          rw [hc] at this
          cases this
      simp [hn, ih]
    | unchanged =>
      have hn : (lookupSnap existing j.id).isNone = false := by
        cases hb : (lookupSnap existing j.id).isNone with
        | false => rfl
        | true =>
          have := (classifyJob_eq_create_iff existing j).mpr hb
          rw [hc] at this
          cases this
      simp [hn, ih]

theorem runSync_currentIds (jobs : List Job) (existing : Snapshot) :
    (runSync jobs existing).currentIds = jobs.map (fun j => j.id) := by
  induction jobs with
  | nil => rfl
  | cons j rest ih =>
    simp only [runSync, List.map_cons]
    cases classifyJob existing j <;> simp [ih]

theorem runSync_nil_snapshot_creates (jobs : List Job) :
    (runSync jobs []).creates = jobs := by
  rw [runSync_creates]
  exact List.filter_eq_self.mpr (fun a _ => rfl)

/-! ## Helper lemmas about stale marking -/

theorem mark_removed_mem (existing : Snapshot) (current : List String)
    (today : String) (k : String) (d : ExistingJob)
    (hmem : (k, d) ∈ existing) (habs : k ∉ current) :
    ∀ st : Store, (k, d) ∈ (mark_removed_jobs existing current today st).2 := by
  induction existing with
  | nil => cases hmem
  | cons hd rest ih =>
    intro st
    obtain ⟨rid, dd⟩ := hd
    rcases List.mem_cons.mp hmem with heq | hmem'
    · rw [Prod.mk.injEq] at heq
      obtain ⟨hk, hd'⟩ := heq
      subst hk
      subst hd'
      simp only [mark_removed_jobs]
      rw [if_neg habs]
      exact List.mem_cons_self _ _
    · simp only [mark_removed_jobs]
      by_cases hc : rid ∈ current
      · rw [if_pos hc]
        exact ih hmem' st
      · rw [if_neg hc]
        exact List.mem_cons_of_mem _ (ih hmem' _)

theorem mark_removed_nil_current (existing : Snapshot) (today : String) :
    ∀ st : Store, (mark_removed_jobs existing [] today st).2 = existing := by
  induction existing with
  | nil => intro st; rfl
  | cons hd rest ih =>
    intro st
    obtain ⟨rid, dd⟩ := hd
    simp only [mark_removed_jobs]
    rw [if_neg (List.not_mem_nil rid)]
    simp [ih]

/-! ## Helper lemmas about property maps -/

theorem lookupProp_replace (fields : List (String × String)) (k v : String)
    (h : fields.any (fun kv => kv.1 == k) = true) :
    lookupProp (fields.map (fun kv => if kv.1 == k then (k, v) else kv)) k =
      some v := by
  induction fields with
  | nil => cases h
  | cons kv rest ih =>
    simp only [List.any_cons, Bool.or_eq_true] at h
    simp only [List.map_cons]
    by_cases hk : (kv.1 == k) = true
    · rw [if_pos hk]
      simp only [lookupProp]
      rw [if_pos (by simp : (((k, v) : String × String).1 == k) = true)]
    · rw [if_neg hk]
      simp only [lookupProp]
      rw [if_neg hk]
      exact ih (h.resolve_left hk)

theorem lookupProp_append_one (fields : List (String × String))
    (k v : String)
    (h : fields.any (fun kv => kv.1 == k) = false) :
    lookupProp (fields ++ [(k, v)]) k = some v := by
  induction fields with
  | nil =>
    simp only [List.nil_append, lookupProp]
    rw [if_pos (by simp : (((k, v) : String × String).1 == k) = true)]
  | cons kv rest ih =>
    simp only [List.any_cons, Bool.or_eq_false_iff] at h
    simp only [List.cons_append, lookupProp]
    rw [if_neg (by simp [h.1])]
    exact ih h.2

theorem lookupProp_setProp_self (fields : List (String × String))
    (k v : String) :
    lookupProp (setProp fields k v) k = some v := by
  unfold setProp
  by_cases h : fields.any (fun kv => kv.1 == k) = true
  · rw [if_pos h]
    exact lookupProp_replace fields k v h
  · rw [if_neg h]
    exact lookupProp_append_one fields k v
      (Bool.not_eq_true _ ▸ eq_false_of_ne_true h)

theorem lookupProp_map_replace_ne (fields : List (String × String))
    (k v key : String) (hne : key ≠ k) :
    lookupProp (fields.map (fun kv => if kv.1 == k then (k, v) else kv))
      key = lookupProp fields key := by
  have hbk : (k == key) = false :=
    beq_eq_false_iff_ne.mpr (fun he => hne he.symm)
  induction fields with
  | nil => rfl
  | cons kv rest ih =>
    simp only [List.map_cons]
    by_cases hk : (kv.1 == k) = true
    · have hkk : kv.1 = k := eq_of_beq hk
      rw [if_pos hk]
      simp only [lookupProp]
      rw [if_neg (by simp [hbk]), if_neg (by rw [hkk, hbk]; simp), ih]
    · rw [if_neg hk]
      simp only [lookupProp]
      by_cases hkey : (kv.1 == key) = true
      · rw [if_pos hkey, if_pos hkey]
      · rw [if_neg hkey, if_neg hkey, ih]

theorem lookupProp_append_one_ne (fields : List (String × String))
    (k v key : String) (hne : key ≠ k) :
    lookupProp (fields ++ [(k, v)]) key = lookupProp fields key := by
  have hbk : (k == key) = false :=
    beq_eq_false_iff_ne.mpr (fun he => hne he.symm)
  induction fields with
  | nil =>
    simp only [List.nil_append, lookupProp]
    rw [if_neg (by simp [hbk])]
  | cons kv rest ih =>
    simp only [List.cons_append, lookupProp]
    by_cases hkey : (kv.1 == key) = true
    · rw [if_pos hkey, if_pos hkey]
    · rw [if_neg hkey, if_neg hkey]
      exact ih

theorem lookupProp_setProp_ne (fields : List (String × String))
    (k v key : String) (hne : key ≠ k) :
    lookupProp (setProp fields k v) key = lookupProp fields key := by
  unfold setProp
  split
  · exact lookupProp_map_replace_ne fields k v key hne
  · exact lookupProp_append_one_ne fields k v key hne

theorem mergeProps_one (fields : List (String × String)) (k v : String) :
    mergeProps fields [(k, v)] = setProp fields k v := rfl

/-! ## Helper lemmas about the retry loop -/

theorem curlGo_allfail_result (parse : String → Option NotionResponse)
    (transport : Nat → List String → TransportResult)
    (method path auth : String) (data : Option String) (errOf : Nat → CurlErr)
    (hfail : ∀ a, attemptOutcome parse
      (transport a (buildCmd method path auth data a)) = .error (errOf a)) :
    ∀ (r att : Nat),
      (curlGo parse transport method path auth data att (r + 1)).result =
        .error (finalizeErr (errOf (att + r))) := by
  intro r
  induction r with
  | zero =>
    intro att
    simp [curlGo, hfail att]
  | succ n ih =>
    intro att
    conv_lhs => rw [curlGo]
    simp only [hfail att]
    rw [if_neg (by simp : ¬((n + 1 == 0) = true))]
    simp only []
    rw [show att + (n + 1) = att + 1 + n from by omega]
    exact ih (att + 1)

theorem curlGo_allfail_waits (parse : String → Option NotionResponse)
    (transport : Nat → List String → TransportResult)
    (method path auth : String) (data : Option String) (errOf : Nat → CurlErr)
    (hfail : ∀ a, attemptOutcome parse
      (transport a (buildCmd method path auth data a)) = .error (errOf a)) :
    ∀ (r att : Nat), 1 ≤ att →
      (curlGo parse transport method path auth data att (r + 1)).waits =
        (List.range' att (r + 1)).map wait_time := by
  intro r
  induction r with
  | zero =>
    intro att hatt
    have hpos : 0 < att := hatt
    simp [curlGo, hfail att, hpos, List.range'_one]
  | succ n ih =>
    intro att hatt
    have hpos : 0 < att := hatt
    conv_lhs => rw [curlGo]
    simp only [hfail att]
    rw [if_neg (by simp : ¬((n + 1 == 0) = true))]
    simp only []
    rw [if_pos hpos, ih (att + 1) (by omega), List.singleton_append]
    conv_rhs => rw [List.range'_succ, List.map_cons, List.range'_succ,
      List.map_cons]
    rw [List.range'_succ, List.map_cons]

theorem debugLogLines_auth (method path auth1 auth2 : String)
    (data : Option String) (attempt : Nat) :
    debugLogLines (buildCmd method path auth1 data attempt)
      (requestUrl path) data =
    debugLogLines (buildCmd method path auth2 data attempt)
      (requestUrl path) data := rfl

theorem curlGo_log_auth_invariant (parse : String → Option NotionResponse)
    (transport : Nat → List String → TransportResult)
    (method path : String) (data : Option String) (auth1 auth2 : String)
    (hTr : ∀ a, transport a (buildCmd method path auth1 data a) =
      transport a (buildCmd method path auth2 data a)) :
    ∀ (r att : Nat),
      (curlGo parse transport method path auth1 data att r).log =
      (curlGo parse transport method path auth2 data att r).log := by
  intro r
  induction r with
  | zero => intro att; rfl
  | succ n ih =>
    intro att
    conv_lhs => rw [curlGo]
    conv_rhs => rw [curlGo]
    rw [hTr att, debugLogLines_auth method path auth1 auth2 data att]
    cases houtcome : attemptOutcome parse
        (transport att (buildCmd method path auth2 data att)) with
    | ok resp => simp only [houtcome]
    | error e =>
      simp only [houtcome]
      by_cases hn : n = 0
      · subst hn
        rfl
      · rw [if_neg (by simp [hn] : ¬((n == 0) = true)),
          if_neg (by simp [hn] : ¬((n == 0) = true))]
        simp only []
        rw [ih (att + 1)]

theorem runSync_total (jobs : List Job) (existing : Snapshot) :
    (runSync jobs existing).creates.length +
      (runSync jobs existing).updates.length +
      (runSync jobs existing).unchanged.length = jobs.length := by
  induction jobs with
  | nil => rfl
  | cons j rest ih =>
    simp only [runSync, List.length_cons]
    cases hc : classifyJob existing j <;> simp only [List.length_cons] <;>
      omega

/-! ## Claims C1 to C5 -/

/-- C1 counterexample: a source sequence containing the same key twice is
not rejected: the run of main's loop on `[sampleJob, sampleJob]` against an
empty snapshot raises nothing and emits a change set with two creates for
the single key J1, contradicting the claim that a duplicate key raises
DuplicateKeyError and produces no change set. -/
theorem c1_counterexample :
    (runSync [sampleJob, sampleJob] []).creates = [sampleJob, sampleJob] ∧
    (runSync [sampleJob, sampleJob] []).creates ≠ [] ∧
    sampleJob.id = "J1" := by decide

/-- C1 (amended): the sync loop performs no duplicate-key detection: every
record is classified independently against the unchanged snapshot, so the
created records are exactly the input records (duplicates included) whose
key is absent from the snapshot, and every input record is processed into
one of the three groups; no error path exists. -/
theorem c1_no_duplicate_rejection (jobs : List Job) (existing : Snapshot) :
    (runSync jobs existing).creates =
      jobs.filter (fun j => (lookupSnap existing j.id).isNone) ∧
    (runSync jobs existing).creates.length +
      (runSync jobs existing).updates.length +
      (runSync jobs existing).unchanged.length = jobs.length :=
  ⟨runSync_creates jobs existing, runSync_total jobs existing⟩

/-- C2: for a source record whose key is in the snapshot, the loop decides
"update" exactly when the title or the upstream timestamp differs from the
stored values, decides the observable "unchanged" outcome exactly when both
agree, and the decision depends on no field other than the key, the title
and the timestamp. -/
theorem c2_change_detection (existing : Snapshot) (j : Job)
    (e : ExistingJob) (h : lookupSnap existing j.id = some e) :
    (classifyJob existing j = .update e.page_id ↔
      (j.title ≠ e.title ∨ j.updated_at.getD "" ≠ e.updated_at)) ∧
    (classifyJob existing j = .unchanged ↔
      (j.title = e.title ∧ j.updated_at.getD "" = e.updated_at)) ∧
    (∀ j' : Job, j'.id = j.id → j'.title = j.title →
      j'.updated_at = j.updated_at →
      classifyJob existing j' = classifyJob existing j) := by
  have hcond : ((j.title != e.title ||
      j.updated_at.getD "" != e.updated_at) = true) ↔
      (j.title ≠ e.title ∨ j.updated_at.getD "" ≠ e.updated_at) := by
    simp [bne_iff_ne]
  refine ⟨?_, ?_, ?_⟩
  · unfold classifyJob
    simp only [h]
    by_cases hb : j.title ≠ e.title ∨ j.updated_at.getD "" ≠ e.updated_at
    · rw [if_pos (hcond.mpr hb)]
      simp [hb]
    · rw [if_neg (fun hh => hb (hcond.mp hh))]
      simp [hb]
  · unfold classifyJob
    simp only [h]
    by_cases hb : j.title ≠ e.title ∨ j.updated_at.getD "" ≠ e.updated_at
    · rw [if_pos (hcond.mpr hb)]
      constructor
      · intro hu
        cases hu
      · intro hu
        rcases hb with hb | hb
        · exact absurd hu.1 hb
        · exact absurd hu.2 hb
    · rw [if_neg (fun hh => hb (hcond.mp hh))]
      push_neg at hb
      simp [hb]
  · intro j' h1 h2 h3
    unfold classifyJob
    rw [h1, h2, h3]

/-- C2 witness: the theorem instantiated at the sample snapshot holding J1
with matching title and timestamp. -/
theorem c2_witness :
    lookupSnap sampleSnap sampleJob.id = some sampleEntry ∧
    ((classifyJob sampleSnap sampleJob = .update sampleEntry.page_id ↔
      (sampleJob.title ≠ sampleEntry.title ∨
        sampleJob.updated_at.getD "" ≠ sampleEntry.updated_at)) ∧
     (classifyJob sampleSnap sampleJob = .unchanged ↔
      (sampleJob.title = sampleEntry.title ∧
        sampleJob.updated_at.getD "" = sampleEntry.updated_at)) ∧
     (∀ j' : Job, j'.id = sampleJob.id → j'.title = sampleJob.title →
        j'.updated_at = sampleJob.updated_at →
        classifyJob sampleSnap j' = classifyJob sampleSnap sampleJob)) :=
  ⟨by decide,
    c2_change_detection sampleSnap sampleJob sampleEntry (by decide)⟩

/-- C3: every snapshot entry whose key is absent from the ids of the
current source records is included in the stale-mark group computed after
the sync loop, whatever the loop produced; and against an empty current-id
set (an empty source that the caller did not abort on) every snapshot entry
is marked. -/
theorem c3_staleness_completeness (jobs : List Job) (existing : Snapshot)
    (today : String) (st : Store) (k : String) (d : ExistingJob)
    (hmem : (k, d) ∈ existing) (habs : k ∉ jobs.map (fun j => j.id)) :
    (k, d) ∈ (mark_removed_jobs existing
        (runSync jobs existing).currentIds today st).2 ∧
    (∀ (ex : Snapshot) (td : String) (st' : Store),
      (mark_removed_jobs ex [] td st').2 = ex) := by
  constructor
  · have hc : k ∉ (runSync jobs existing).currentIds := by
      rw [runSync_currentIds]
      exact habs
    exact mark_removed_mem existing _ today k d hmem hc st
  · intro ex td st'
    exact mark_removed_nil_current ex td st'

/-- C3 witness: J2 is in the snapshot, the single source record has key J1,
and J2's entry lands in the stale-mark group. -/
theorem c3_witness :
    ("J2", sampleEntry2) ∈ sampleSnap2 ∧
    "J2" ∉ [sampleJob].map (fun j => j.id) ∧
    (("J2", sampleEntry2) ∈ (mark_removed_jobs sampleSnap2
        (runSync [sampleJob] sampleSnap2).currentIds "2026-10-12" []).2 ∧
     (∀ (ex : Snapshot) (td : String) (st' : Store),
      (mark_removed_jobs ex [] td st').2 = ex)) :=
  ⟨by decide, by decide,
    c3_staleness_completeness [sampleJob] sampleSnap2 "2026-10-12" []
      "J2" sampleEntry2 (by decide) (by decide)⟩

/-- C4 counterexample: the record with key J1 and changed title "New Title"
is classified as needing an update, yet update_job_page leaves the store
untouched: the stored title remains "Old Title" instead of being set to the
new source value, contradicting the claim that the update mutates the
tracked fields to the new values. -/
theorem c4_counterexample :
    update_job_page sampleStore "P1" sampleJobNew = sampleStore ∧
    (∀ p ∈ update_job_page sampleStore "P1" sampleJobNew,
      lookupProp p.fields "職位名稱" = some "Old Title") ∧
    sampleJobNew.title = "New Title" ∧
    classifyJob sampleSnap sampleJobNew = .update "P1" := by decide

/-- C4 (amended): for records classified as needing an update, the update
operation writes nothing at all: the property map it builds is empty, so no
update request is issued and the destination record is left entirely
unchanged; in particular it is never replaced and never deleted. -/
theorem c4_update_writes_nothing (st : Store) (page_id : String) (j : Job) :
    update_job_page st page_id j = st ∧ update_properties j = [] :=
  ⟨rfl, rfl⟩

/-- C5: stale-marking a page sends exactly the one 備註 property holding
the fixed marker text plus the current date: the store keeps the same
number of pages (nothing is deleted), the marked page keeps its id and all
fields other than 備註, and 備註 is set to the marker annotation; pages
with a different id are untouched. -/
theorem c5_stale_mark_frame (st : Store) (pid today : String) (p : Page)
    (hp : p ∈ st) :
    (pages_update st pid (markRemovedProps today)).length = st.length ∧
    lookupProp (mergeProps p.fields (markRemovedProps today)) "備註" =
      some (staleMarkerText today) ∧
    (∀ key, key ≠ "備註" →
      lookupProp (mergeProps p.fields (markRemovedProps today)) key =
        lookupProp p.fields key) ∧
    (p.id = pid →
      { p with fields := mergeProps p.fields (markRemovedProps today) } ∈
        pages_update st pid (markRemovedProps today)) ∧
    (p.id ≠ pid → p ∈ pages_update st pid (markRemovedProps today)) := by
  have hmerge : mergeProps p.fields (markRemovedProps today) =
      setProp p.fields "備註" (staleMarkerText today) := rfl
  refine ⟨?_, ?_, ?_, ?_, ?_⟩
  · unfold pages_update
    rw [List.length_map]
  · rw [hmerge]
    exact lookupProp_setProp_self p.fields _ _
  · intro key hk
    rw [hmerge]
    exact lookupProp_setProp_ne p.fields _ _ key hk
  · intro hid
    unfold pages_update
    have heq : (fun q : Page => if q.id == pid then
        { q with fields := mergeProps q.fields (markRemovedProps today) }
        else q) p =
        { p with fields := mergeProps p.fields (markRemovedProps today) } := by
      simp [hid]
    rw [← heq]
    exact List.mem_map_of_mem _ hp
  · intro hid
    unfold pages_update
    have heq : (fun q : Page => if q.id == pid then
        { q with fields := mergeProps q.fields (markRemovedProps today) }
        else q) p = p := by
      simp [hid]
    rw [← heq]
    exact List.mem_map_of_mem _ hp

/-- C5 witness: the theorem instantiated at the one-page sample store, the
page being marked. -/
theorem c5_witness :
    samplePage ∈ sampleStore ∧
    ((pages_update sampleStore "P1"
        (markRemovedProps "2026-10-12")).length = sampleStore.length ∧
     lookupProp (mergeProps samplePage.fields
        (markRemovedProps "2026-10-12")) "備註" =
       some (staleMarkerText "2026-10-12") ∧
     (∀ key, key ≠ "備註" →
       lookupProp (mergeProps samplePage.fields
          (markRemovedProps "2026-10-12")) key =
         lookupProp samplePage.fields key) ∧
     (samplePage.id = "P1" →
       { samplePage with fields := mergeProps samplePage.fields (markRemovedProps "2026-10-12") } ∈
         pages_update sampleStore "P1" (markRemovedProps "2026-10-12")) ∧
     (samplePage.id ≠ "P1" →
       samplePage ∈ pages_update sampleStore "P1"
        (markRemovedProps "2026-10-12"))) :=
  ⟨by decide,
    c5_stale_mark_frame sampleStore "P1" "2026-10-12" samplePage (by decide)⟩

/-! ## Claims C6 to C10 -/

/-- C6: in a run of the retry loop, the sleep performed before resending
attempt i (for 1 ≤ i < maxRetries) is wait_time i = 2 ^ i seconds, which
equals min(cap, base ^ i) for base 2 and the cap 2 ^ (maxRetries - 1) that
bounds every backoff of the run, and doubles at each retry: the full waits
trace of an all-failing run is the list of wait_time i for i from 1 to
maxRetries - 1. -/
theorem c6_exponential_backoff (maxRetries i : Nat) (h1 : 1 ≤ i)
    (h2 : i < maxRetries) (parse : String → Option NotionResponse)
    (transport : Nat → List String → TransportResult)
    (method path auth : String) (data : Option String)
    (errOf : Nat → CurlErr)
    (hfail : ∀ a, attemptOutcome parse
      (transport a (buildCmd method path auth data a)) = .error (errOf a)) :
    wait_time i = min (2 ^ (maxRetries - 1)) (2 ^ i) ∧
    wait_time i = 2 * wait_time (i - 1) ∧
    (curl_request parse transport method path auth data maxRetries).waits =
      (List.range' 1 (maxRetries - 1)).map wait_time := by
  obtain ⟨m, rfl⟩ : ∃ m, maxRetries = m + 2 := ⟨maxRetries - 2, by omega⟩
  refine ⟨?_, ?_, ?_⟩
  · have hle : 2 ^ i ≤ 2 ^ (m + 2 - 1) :=
      Nat.pow_le_pow_right (by omega) (by omega)
    unfold wait_time
    rw [min_eq_right hle]
  · have hi : i = i - 1 + 1 := by omega
    unfold wait_time
    conv_lhs => rw [hi]
    rw [pow_succ]
    ring
  · unfold curl_request
    conv_lhs => rw [curlGo]
    simp only [hfail 0]
    rw [if_neg (by simp : ¬((m + 1 == 0) = true))]
    simp only []
    rw [if_neg (by simp : ¬((0 : Nat) > 0)), List.nil_append]
    rw [curlGo_allfail_waits parse transport method path auth data errOf
      hfail m 1 (by omega)]
    rfl

/-- C6 witness: the backoff law instantiated at retry 2 of a five-attempt
run over the constantly failing transport. -/
theorem c6_witness :
    1 ≤ 2 ∧ 2 < 5 ∧
    (∀ a, attemptOutcome pNone (failTransport a
      (buildCmd "POST" "/pages" "tok" none a)) =
        .error ((fun _ : Nat => CurlErr.failure (curlFailMessage failTR)) a)) ∧
    (wait_time 2 = min (2 ^ (5 - 1)) (2 ^ 2) ∧
     wait_time 2 = 2 * wait_time (2 - 1) ∧
     (curl_request pNone failTransport "POST" "/pages" "tok" none 5).waits =
       (List.range' 1 (5 - 1)).map wait_time) :=
  ⟨by decide, by decide, fun _ => rfl,
    c6_exponential_backoff 5 2 (by decide) (by decide) pNone failTransport
      "POST" "/pages" "tok" none
      (fun _ => CurlErr.failure (curlFailMessage failTR)) (fun _ => rfl)⟩

/-- C7: when every attempt of a request fails, the loop raises a single
terminal error, namely the finalization of the last attempt's own error
(re-raised unchanged for generic failures), and never returns a response;
in particular, when the last attempt failed with a transport failure
message, the terminal error carries exactly that message. -/
theorem c7_exhaustion_preserves_last_error (maxRetries : Nat)
    (h : 1 ≤ maxRetries) (parse : String → Option NotionResponse)
    (transport : Nat → List String → TransportResult)
    (method path auth : String) (data : Option String)
    (errOf : Nat → CurlErr)
    (hfail : ∀ a, attemptOutcome parse
      (transport a (buildCmd method path auth data a)) = .error (errOf a)) :
    (curl_request parse transport method path auth data maxRetries).result =
      .error (finalizeErr (errOf (maxRetries - 1))) ∧
    (∀ resp, (curl_request parse transport method path auth data
      maxRetries).result ≠ .ok resp) ∧
    (∀ m, errOf (maxRetries - 1) = .failure m →
      (curl_request parse transport method path auth data
        maxRetries).result = .error (.failure m)) := by
  obtain ⟨r, rfl⟩ : ∃ r, maxRetries = r + 1 := ⟨maxRetries - 1, by omega⟩
  have hres := curlGo_allfail_result parse transport method path auth data
    errOf hfail r 0
  rw [Nat.zero_add] at hres
  have hsub : r + 1 - 1 = r := rfl
  refine ⟨?_, ?_, ?_⟩
  · unfold curl_request
    rw [hsub]
    exact hres
  · intro resp hcon
    unfold curl_request at hcon
    rw [hres] at hcon
    exact Except.noConfusion hcon
  · intro m hm
    rw [hsub] at hm
    unfold curl_request
    rw [hres, hm]
    rfl

/-- C7 witness: five consecutive transport failures (curl exit code 7)
yield the terminal error carrying the last failure's message and no
response. -/
theorem c7_witness :
    1 ≤ 5 ∧
    (∀ a, attemptOutcome pNone (failTransport a
      (buildCmd "POST" "/pages" "tok" none a)) =
        .error ((fun _ : Nat => CurlErr.failure (curlFailMessage failTR)) a)) ∧
    ((curl_request pNone failTransport "POST" "/pages" "tok" none
        5).result =
      .error (finalizeErr ((fun _ : Nat =>
        CurlErr.failure (curlFailMessage failTR)) (5 - 1))) ∧
     (∀ resp, (curl_request pNone failTransport "POST" "/pages" "tok" none
        5).result ≠ .ok resp) ∧
     (∀ m, (fun _ : Nat => CurlErr.failure (curlFailMessage failTR))
        (5 - 1) = .failure m →
       (curl_request pNone failTransport "POST" "/pages" "tok" none
         5).result = .error (.failure m))) :=
  ⟨by decide, fun _ => rfl,
    c7_exhaustion_preserves_last_error 5 (by decide) pNone failTransport
      "POST" "/pages" "tok" none
      (fun _ => CurlErr.failure (curlFailMessage failTR)) (fun _ => rfl)⟩

/-- C8 counterexample: when every snapshot-fetch attempt fails, the run
does not abort: the fetch returns the empty snapshot, the run completes,
and the single source record (whose key is in the real database) is applied
as a create against the destination, contradicting the claim that a failed
snapshot fetch is fatal and nothing is applied. -/
theorem c8_counterexample :
    mainRun [sampleJob] (fun _ => .error "network down") "2026-10-12" [] =
      .completed (runSync [sampleJob] []) [] [] ∧
    (runSync [sampleJob] []).creates = [sampleJob] ∧
    (mainRun [sampleJob] (fun _ => .error "network down") "2026-10-12"
      []).stoppedEarly = false := by decide

/-- C8 (amended): when every snapshot-fetch attempt fails, the fetch
returns the empty snapshot after MAX_RETRIES attempts and the run continues
as if the database were empty: every source record is created and nothing
is stale-marked. -/
theorem c8_failed_fetch_continues (jobs : List Job) (hne : jobs ≠ [])
    (err : Nat → String) (today : String) (st : Store) :
    get_existing_jobs_from_notion (fun a => .error (err a)) = [] ∧
    mainRun jobs (fun a => .error (err a)) today st =
      .completed (runSync jobs []) [] st ∧
    (runSync jobs []).creates = jobs := by
  have hget : get_existing_jobs_from_notion (fun a => .error (err a)) = [] :=
    rfl
  refine ⟨hget, ?_, runSync_nil_snapshot_creates jobs⟩
  have hempty : jobs.isEmpty = false := by
    cases jobs with
    | nil => exact absurd rfl hne
    | cons a l => rfl
  unfold mainRun
  rw [hempty]
  simp only [Bool.false_eq_true, if_false, hget]
  rfl

/-- C8 witness: the amended behaviour at a one-record source and an
always-failing query. -/
theorem c8_witness :
    ([sampleJob] ≠ ([] : List Job)) ∧
    (get_existing_jobs_from_notion (fun _ => .error "boom") = [] ∧
     mainRun [sampleJob] (fun _ => .error "boom") "2026-10-12" [] =
       .completed (runSync [sampleJob] []) [] [] ∧
     (runSync [sampleJob] []).creates = [sampleJob]) :=
  ⟨by decide,
    c8_failed_fetch_continues [sampleJob] (by decide) (fun _ => "boom")
      "2026-10-12" []⟩

set_option maxRecDepth 100000 in
/-- C9 counterexample: on retries the client runs curl in verbose mode and
prints the transport's stderr verbatim inside its failure diagnostics, so
with a transport that echoes the request headers under verbose mode (curl's
documented verbose behaviour, modelled by echoTransport) the client's log
contains the bearer token, and the log differs between two credential
values, contradicting the claim that no diagnostic output contains the
credential and that the output is independent of it. -/
theorem c9_counterexample :
    strContains (String.intercalate "\n"
        ((curl_request pNone echoTransport "GET" "/x" "TOKEN-123" none
          3).log)) "TOKEN-123" = true ∧
    (curl_request pNone echoTransport "GET" "/x" "TOKEN-123" none 3).log ≠
      (curl_request pNone echoTransport "GET" "/x" "OTHER-456" none
        3).log := by
  decide

/-- C9 (amended): the client's own command echo never prints the
credential (only the first eight redacted command elements and the URL),
and the diagnostic output is a function of the transport's observable
results alone: whenever the transport's results do not depend on the
credential, the whole log is identical for any two credential values; the
leak is exactly the verbose-mode stderr passed through from the
transport. -/
theorem c9_log_noninterference (parse : String → Option NotionResponse)
    (transport : Nat → List String → TransportResult)
    (method path : String) (data : Option String) (auth1 auth2 : String)
    (maxRetries : Nat)
    (hTr : ∀ a, transport a (buildCmd method path auth1 data a) =
      transport a (buildCmd method path auth2 data a)) :
    (curl_request parse transport method path auth1 data maxRetries).log =
    (curl_request parse transport method path auth2 data maxRetries).log :=
  curlGo_log_auth_invariant parse transport method path data auth1 auth2
    hTr maxRetries 0

/-- C9 witness: over a transport whose results ignore the command line, the
logs for two different credentials coincide. -/
theorem c9_witness :
    (∀ a, failTransport a (buildCmd "GET" "/x" "A" none a) =
      failTransport a (buildCmd "GET" "/x" "B" none a)) ∧
    (curl_request pNone failTransport "GET" "/x" "A" none 5).log =
    (curl_request pNone failTransport "GET" "/x" "B" none 5).log :=
  ⟨fun _ => rfl,
    c9_log_noninterference pNone failTransport "GET" "/x" none "A" "B" 5
      (fun _ => rfl)⟩

/-- C10: every created page carries the 申請連結 property, whose value is
the source record's apply_url when that is present and starts with "http",
and the fixed fallback URL otherwise. -/
theorem c10_apply_url_always_set (j : Job) (today : String) :
    lookupProp (create_properties j today) "申請連結" =
      some (apply_url_property j) ∧
    (∀ u, j.apply_url = some u → u.startsWith "http" = true →
      apply_url_property j = u) ∧
    ((∀ u, j.apply_url = some u → u.startsWith "http" = false) →
      apply_url_property j = "https://www.anduril.com") := by
  refine ⟨rfl, ?_, ?_⟩
  · intro u hu hs
    unfold apply_url_property
    simp only [hu]
    by_cases hemp : u = ""
    · subst hemp
      exact absurd hs (by decide)
    · rw [if_pos (by simp [hemp, hs])]
  · intro hall
    unfold apply_url_property
    cases hau : j.apply_url with
    | none => rfl
    | some u =>
      have hs := hall u hau
      show (if (u != "" && u.startsWith "http") = true then u
        else "https://www.anduril.com") = "https://www.anduril.com"
      rw [if_neg (by simp [hs])]

/-- C10 witness: the apply-URL property at the sample record, whose
apply_url is present and starts with "http". -/
theorem c10_witness :
    lookupProp (create_properties sampleJob "2026-10-12") "申請連結" =
      some (apply_url_property sampleJob) ∧
    (∀ u, sampleJob.apply_url = some u → u.startsWith "http" = true →
      apply_url_property sampleJob = u) ∧
    ((∀ u, sampleJob.apply_url = some u → u.startsWith "http" = false) →
      apply_url_property sampleJob = "https://www.anduril.com") :=
  c10_apply_url_always_set sampleJob "2026-10-12"

end JobSync
